import Mathlib

/-!
Shallow embedding of the NPS retirement-projection engine: the
month-by-month simulation variants (`web_nps_calc-v2.py` and its
near-duplicate copy) and the closed-form variant (`web_nps_calc.py`).
Currency amounts are modelled as rationals and calendar dates as explicit
year/month/day triples mirroring Python `datetime.date`.
-/

namespace NPS

/-- A calendar date, modelling Python `datetime.date`. -/
structure Date where
  year : Int
  month : Int
  day : Int
deriving DecidableEq, Repr

/-- Gregorian leap-year rule, as used by Python `datetime`. -/
def isLeapYear (y : Int) : Bool :=
  y % 4 == 0 && (y % 100 != 0 || y % 400 == 0)

/-- Number of days in month `m` of year `y`, as in Python `datetime`. -/
def daysInMonth (y m : Int) : Int :=
  if m = 2 then (if isLeapYear y then 29 else 28)
  else if m = 4 ∨ m = 6 ∨ m = 9 ∨ m = 11 then 30
  else 31

/-- The day before a valid date: `d - datetime.timedelta(days=1)`. -/
def prevDay (d : Date) : Date :=
  if 1 < d.day then ⟨d.year, d.month, d.day - 1⟩
  else if d.month = 1 then ⟨d.year - 1, 12, 31⟩
  else ⟨d.year, d.month - 1, daysInMonth d.year (d.month - 1)⟩

/-- `d + relativedelta(months=n)`: month arithmetic with day clamping. -/
def addMonths (d : Date) (n : Int) : Date :=
  let t := d.month - 1 + n
  let y := d.year + t.ediv 12
  let m := t.emod 12 + 1
  ⟨y, m, min d.day (daysInMonth y m)⟩

/-- Python date comparison `a < b`: lexicographic on (year, month, day). -/
def dateLt (a b : Date) : Bool :=
  decide (a.year < b.year ∨ (a.year = b.year ∧
    (a.month < b.month ∨ (a.month = b.month ∧ a.day < b.day))))

/-- `relativedelta(asOf, birth).years`, following dateutil's algorithm:
take the raw calendar month difference, form the anniversary
`birth + relativedelta(months=raw)` — month arithmetic with day clamping,
exactly `addMonths` — then step the month count once toward `asOf` when
the anniversary overshoots (dateutil's while loop, which for valid dates
runs at most once because the anniversary lands in the month of `asOf`),
and finally truncate the adjusted month count to whole years
(`_set_months` does `divmod` on the absolute value and restores the
sign).  The day clamping matters: a subject born on Feb 29 evaluated on
Feb 28 of a non-leap year has already reached the (clamped) anniversary. -/
def ageYears (asOf birth : Date) : Int :=
  let months := (asOf.year - birth.year) * 12 + (asOf.month - birth.month)
  let dtm := addMonths birth months
  let monthsAdj :=
    if dateLt asOf birth then (if dateLt dtm asOf then months + 1 else months)
    else (if dateLt asOf dtm then months - 1 else months)
  if 0 ≤ monthsAdj then monthsAdj.ediv 12 else -((-monthsAdj).ediv 12)

end NPS

namespace NPSv2

open NPS

/-- The constructor arguments of `NPSCalculator` in `web_nps_calc-v2.py`
(the simulation variants).  The wall-clock `current_date` is threaded
separately as an explicit as-of date. -/
structure Input where
  birthDate : Date
  currentBalance : ℚ
  monthlyContribution : ℚ
  annuityFrac : ℚ
  annualReturnRate : ℚ
  annualIncreaseRate : ℚ
  retirementAge : Int
  annuityRate : ℚ
  inflationRate : ℚ
deriving DecidableEq, Repr

/-- Failures raised inside `compute`: the already-retired `ValueError`,
and the `IndexError` that `number_to_words_indian` raises during the
final word-generation stage when an amount's integer part is below -20. -/
inductive Err
  | alreadyRetired
  | indexError
deriving DecidableEq, Repr

/-- Retirement date: last day of the birth month in the year the subject
turns `retirementAge`, computed exactly as in `compute` — first day of the
following month (December rolling over to January of the next year) minus
one day. -/
def computeRetirementDate (birth : Date) (retirementAge : Int) : Date :=
  let retirementYear := birth.year + retirementAge
  let retirementMonth := birth.month
  let nextPair : Int × Int :=
    if retirementMonth = 12 then (retirementYear + 1, 1)
    else (retirementYear, retirementMonth + 1)
  prevDay ⟨nextPair.1, nextPair.2, 1⟩

/-- Whole-month count from the as-of date to the retirement date, as in
`compute`: year and month difference only, day-of-month ignored. -/
def monthsToRetirement (inp : Input) (asOf : Date) : Int :=
  let rd := computeRetirementDate inp.birthDate inp.retirementAge
  (rd.year - asOf.year) * 12 + (rd.month - asOf.month)

/-- Contribution applied in simulated month `k + 1` (0-based index `k`).
This is the translation of the escalation loops of both simulation
variants: in `web_nps_calc-v2.py` the array cell `monthly_contributions[k]`
satisfies exactly this recursion (`current_contribution` is multiplied by
`1 + annual_increase_rate` before being stored whenever `k % 12 == 0` and
`k != 0`), and in the copy variant the running `monthly` used in loop
iteration `k + 1` has been multiplied once for each earlier iteration
divisible by 12, giving the same recursion. -/
def monthlyContrib (mc g : ℚ) : ℕ → ℚ
  | 0 => mc
  | k + 1 => if (k + 1) % 12 = 0 then monthlyContrib mc g k * (1 + g)
             else monthlyContrib mc g k

/-- The simulated corpus trajectory: `corpus_values[m]` of `compute`. -/
def corpus (inp : Input) : ℕ → ℚ
  | 0 => inp.currentBalance
  | m + 1 =>
    corpus inp m * (1 + inp.annualReturnRate / 12) +
      monthlyContrib inp.monthlyContribution inp.annualIncreaseRate m

/-- The summary quantities `compute` stores on the calculator object. -/
structure Summary where
  retirementDate : Date
  months : Int
  monthlyRate : ℚ
  totalCorpus : ℚ
  annuityCorpus : ℚ
  lumpSum : ℚ
  monthlyPension : ℚ
  realMonthlyPension : ℚ
  totalInvested : ℚ
  growth : ℚ
deriving DecidableEq, Repr

/-- Derived quantities computed after the simulation loop, for a run of
`n` months. -/
def summaryOf (inp : Input) (asOf : Date) (n : ℕ) : Summary :=
  let tc := corpus inp n
  let ac := tc * inp.annuityFrac
  let ls := tc * (1 - inp.annuityFrac)
  let mp := ac * inp.annuityRate / 12
  let yearsToRetirement := inp.retirementAge - ageYears asOf inp.birthDate
  let ti := inp.currentBalance +
    ∑ k ∈ Finset.range n, monthlyContrib inp.monthlyContribution inp.annualIncreaseRate k
  { retirementDate := computeRetirementDate inp.birthDate inp.retirementAge
    months := (n : Int)
    monthlyRate := inp.annualReturnRate / 12
    totalCorpus := tc
    annuityCorpus := ac
    lumpSum := ls
    monthlyPension := mp
    realMonthlyPension := mp / (1 + inp.inflationRate) ^ yearsToRetirement
    totalInvested := ti
    growth := tc - ti }

/-- Python `int()` on a real amount: truncation toward zero. -/
def pyInt (q : ℚ) : Int :=
  if 0 ≤ q then ⌊q⌋ else -⌊-q⌋

/-- Whether `number_to_words_indian` returns without raising on `num`.
`num == 0` short-circuits to "Zero Rupees".  Otherwise `get_words` is
called on `int(num)`; for a non-negative argument every list index and
recursive call is in range, while a negative argument always takes the
first branch `n < 20` and evaluates `units[n]`, a Python negative index
into the 20-element `units` list — in range exactly when `n ≥ -20` and
an `IndexError` otherwise.  (The paise part `int((num - int_part) * 100)`
is never positive for a negative `num`, so it adds no failure case.) -/
def wordsIndianOk (q : ℚ) : Bool :=
  q == 0 || decide (-20 ≤ pyInt q)

/-- Whether the seven `number_to_words_indian` calls at the end of
`compute` (total corpus, annuity corpus, lump sum, monthly pension,
inflation-adjusted pension, total invested, growth) all succeed. -/
def wordsSafe (s : Summary) : Bool :=
  wordsIndianOk s.totalCorpus && wordsIndianOk s.annuityCorpus &&
    wordsIndianOk s.lumpSum && wordsIndianOk s.monthlyPension &&
    wordsIndianOk s.realMonthlyPension && wordsIndianOk s.totalInvested &&
    wordsIndianOk s.growth

/-- The observable state of the calculator object after `compute`: the
trajectory lists (initialised empty in `__init__`), the summary
attributes as set by the derived-quantity stage (`result`), and whether
`compute` as a whole returned normally (`outcome`): it raises the
already-retired error before the loop, and an `IndexError` from
`number_to_words_indian` after all summary attributes are already set
when some derived amount cannot be rendered in words. -/
structure EngineState where
  monthlyData : List (Date × ℚ)
  yearlyData : List (Date × ℚ)
  result : Except Err Summary
  outcome : Except Err Unit
deriving Repr

/-- The whole of `compute`, stage by stage: retirement-date arithmetic
and the already-retired check (raised before the loop, leaving the
snapshot lists empty and no summary attribute set), the simulation loop
with its quarterly and yearly snapshot recording, the derived
quantities, and finally the seven `number_to_words_indian` calls, which
raise an `IndexError` out of `__init__` when some amount cannot be
rendered — after the trajectories and every summary attribute have
already been set. -/
def engineRun (inp : Input) (asOf : Date) : EngineState :=
  let m := monthsToRetirement inp asOf
  if m ≤ 0 then ⟨[], [], .error .alreadyRetired, .error .alreadyRetired⟩
  else
    let n := m.toNat
    let monthIdx := (List.range n).map (· + 1)
    let s := summaryOf inp asOf n
    { monthlyData :=
        (monthIdx.filter (fun j => j % 3 == 0 || j == n)).map
          (fun j => (addMonths asOf (Int.ofNat j), corpus inp j))
      yearlyData :=
        (monthIdx.filter (fun j => j % 12 == 0 || j == n)).map
          (fun j => (addMonths asOf (Int.ofNat j), corpus inp j))
      result := .ok s
      outcome := if wordsSafe s then .ok () else .error .indexError }

/-- The escalating-contribution branch of the `total_invested` loop in the
copy variant: state `(total so far, current yearly contribution)` after
processing the given number of whole years. -/
def p0InvestLoop (mc g : ℚ) : ℕ → ℚ × ℚ
  | 0 => (0, mc)
  | y + 1 =>
    let p := p0InvestLoop mc g y
    (p.1 + p.2 * 12, p.2 * (1 + g))

/-- `total_invested` as computed by the copy variant (`part_000`): a
closed form when there is no escalation, otherwise a year-by-year loop
over `int(years)` whole years plus the partial final year. -/
def p0TotalInvested (inp : Input) (n : ℕ) : ℚ :=
  if inp.annualIncreaseRate = 0 then
    inp.currentBalance + inp.monthlyContribution * (n : ℚ)
  else
    let p := p0InvestLoop inp.monthlyContribution inp.annualIncreaseRate (n / 12)
    inp.currentBalance + p.1 +
      (if n % 12 ≠ 0 then p.2 * ((n % 12 : ℕ) : ℚ) else 0)

end NPSv2

namespace NPSv1

/-- The constructor arguments of `NPSCalculator` in `web_nps_calc.py`
(the closed-form variant). -/
structure Input where
  currentAge : Int
  currentBalance : ℚ
  monthlyContribution : ℚ
  annuityFrac : ℚ
  annualReturnRate : ℚ
  retirementAge : Int
  annuityRate : ℚ
deriving DecidableEq, Repr

/-- The quantities `compute` of the closed-form variant stores. -/
structure Result where
  years : Int
  months : Int
  monthlyRate : ℚ
  fvContributions : ℚ
  fvCurrent : ℚ
  totalCorpus : ℚ
  annuityCorpus : ℚ
  lumpSum : ℚ
  monthlyPension : ℚ
  totalInvested : ℚ
  growth : ℚ
deriving DecidableEq, Repr

/-- Failure of the closed-form `compute`: Python raises
`ZeroDivisionError` both on division by a zero float and on raising a
zero float to a negative power. -/
inductive Err
  | zeroDivision
deriving DecidableEq, Repr

/-- `compute` of the closed-form variant.  The partial operations are the
power `(1 + r) ** months` (fails on zero base with negative exponent),
the division of the future-value term by `r`, and the power
`(1 + R) ** years`, checked in Python's evaluation order. -/
def compute (inp : Input) : Except Err Result :=
  let years := inp.retirementAge - inp.currentAge
  let months := years * 12
  let r := inp.annualReturnRate / 12
  if 1 + r = 0 ∧ months < 0 then .error .zeroDivision
  else if r = 0 then .error .zeroDivision
  else if 1 + inp.annualReturnRate = 0 ∧ years < 0 then .error .zeroDivision
  else
    let fvContributions := inp.monthlyContribution * ((1 + r) ^ months - 1) / r
    let fvCurrent := inp.currentBalance * (1 + inp.annualReturnRate) ^ years
    let tc := fvContributions + fvCurrent
    let ti := inp.monthlyContribution * (months : ℚ) + inp.currentBalance
    .ok
      { years := years
        months := months
        monthlyRate := r
        fvContributions := fvContributions
        fvCurrent := fvCurrent
        totalCorpus := tc
        annuityCorpus := tc * inp.annuityFrac
        lumpSum := tc * (1 - inp.annuityFrac)
        monthlyPension := tc * inp.annuityFrac * inp.annuityRate / 12
        totalInvested := ti
        growth := tc - ti }

end NPSv1

namespace NPSv2

open NPS

/-- A sample valid run: born 1964-11-02, retiring at 60, evaluated as of
2024-09-15, two months before the retirement date 2024-11-30. -/
def wInput : Input :=
  { birthDate := ⟨1964, 11, 2⟩
    currentBalance := 1000
    monthlyContribution := 100
    annuityFrac := 1
    annualReturnRate := 12
    annualIncreaseRate := 0
    retirementAge := 60
    annuityRate := 6
    inflationRate := 0 }

/-- The as-of date used with the sample inputs. -/
def wAsOf : Date := ⟨2024, 9, 15⟩

/-- Like `wInput` but with an annual return rate of exactly −1 (allowed
by the data-model constraint "greater than −1" read inclusively by the
monotonicity claim) and no contributions. -/
def cexC8Input : Input :=
  { birthDate := ⟨1964, 11, 2⟩
    currentBalance := 1200
    monthlyContribution := 0
    annuityFrac := 1
    annualReturnRate := -1
    annualIncreaseRate := 0
    retirementAge := 60
    annuityRate := 6
    inflationRate := 0 }

/-- An input with a negative current balance, which the engine performs
no validation against; the balance is small enough (and the return rate
zero) that every derived amount stays within the range the
number-to-words formatting survives, so the run completes normally. -/
def cexC9Input : Input :=
  { birthDate := ⟨1964, 11, 2⟩
    currentBalance := -10
    monthlyContribution := 0
    annuityFrac := 1
    annualReturnRate := 0
    annualIncreaseRate := 0
    retirementAge := 60
    annuityRate := 6
    inflationRate := 0 }

/-- Like `wInput` but born in 1950, so that as of 2024-09-15 the
retirement date 2010-01-31 is long past. -/
def wRetiredInput : Input :=
  { birthDate := ⟨1950, 1, 1⟩
    currentBalance := 1000
    monthlyContribution := 100
    annuityFrac := 1
    annualReturnRate := 12
    annualIncreaseRate := 0
    retirementAge := 60
    annuityRate := 6
    inflationRate := 0 }

end NPSv2

namespace NPSv1

/-- A sample input for the closed-form variant. -/
def wV1Input : Input :=
  { currentAge := 35
    currentBalance := 1000
    monthlyContribution := 100
    annuityFrac := 1
    annualReturnRate := 12
    retirementAge := 60
    annuityRate := 6 }

end NPSv1

namespace NPSv2

open NPS

lemma monthlyContrib_eq (mc g : ℚ) (k : ℕ) :
    monthlyContrib mc g k = mc * (1 + g) ^ (k / 12) := by
  induction k with
  | zero => simp [monthlyContrib]
  | succ k ih =>
    by_cases h : (k + 1) % 12 = 0
    · have hdiv : (k + 1) / 12 = k / 12 + 1 := by omega
      rw [monthlyContrib, if_pos h, ih, hdiv, pow_succ]
      ring
    · have hdiv : (k + 1) / 12 = k / 12 := by omega
      rw [monthlyContrib, if_neg h, ih, hdiv]

lemma monthlyContrib_nonneg {mc g : ℚ} (hmc : 0 ≤ mc) (hg : 0 ≤ g) (k : ℕ) :
    0 ≤ monthlyContrib mc g k := by
  rw [monthlyContrib_eq]
  exact mul_nonneg hmc (pow_nonneg (by linarith) _)

lemma sum_monthlyContrib_zero (mc : ℚ) (n : ℕ) :
    ∑ k ∈ Finset.range n, monthlyContrib mc 0 k = mc * (n : ℚ) := by
  have h : ∀ k ∈ Finset.range n, monthlyContrib mc 0 k = mc := by
    intro k _
    rw [monthlyContrib_eq]
    norm_num
  rw [Finset.sum_congr rfl h, Finset.sum_const, Finset.card_range, nsmul_eq_mul]
  ring

lemma p0InvestLoop_snd (mc g : ℚ) (y : ℕ) :
    (p0InvestLoop mc g y).2 = mc * (1 + g) ^ y := by
  induction y with
  | zero => simp [p0InvestLoop]
  | succ y ih =>
    simp only [p0InvestLoop]
    rw [ih, pow_succ]
    ring

lemma sum_monthlyContrib (mc g : ℚ) (n : ℕ) :
    ∑ k ∈ Finset.range n, monthlyContrib mc g k =
      (p0InvestLoop mc g (n / 12)).1 + mc * (1 + g) ^ (n / 12) * ((n % 12 : ℕ) : ℚ) := by
  induction n with
  | zero => simp [p0InvestLoop]
  | succ n ih =>
    rw [Finset.sum_range_succ, ih, monthlyContrib_eq]
    by_cases h : (n + 1) % 12 = 0
    · have h1 : (n + 1) / 12 = n / 12 + 1 := by omega
      have h2 : n % 12 = 11 := by omega
      rw [h1, h2, h]
      simp only [p0InvestLoop]
      rw [p0InvestLoop_snd]
      push_cast
      ring
    · have h1 : (n + 1) / 12 = n / 12 := by omega
      have h2 : (n + 1) % 12 = n % 12 + 1 := by omega
      rw [h1, h2]
      push_cast
      ring

lemma p0TotalInvested_eq (inp : Input) (n : ℕ) :
    p0TotalInvested inp n = inp.currentBalance +
      ∑ k ∈ Finset.range n,
        monthlyContrib inp.monthlyContribution inp.annualIncreaseRate k := by
  by_cases hg : inp.annualIncreaseRate = 0
  · rw [p0TotalInvested, if_pos hg, hg, sum_monthlyContrib_zero]
  · rw [p0TotalInvested, if_neg hg]
    simp only [sum_monthlyContrib]
    by_cases hn : n % 12 = 0
    · rw [if_neg (by omega), hn]
      norm_num
    · rw [if_pos hn, p0InvestLoop_snd]
      ring

lemma corpus_nonneg (inp : Input) (hcb : 0 ≤ inp.currentBalance)
    (hmc : 0 ≤ inp.monthlyContribution) (hg : 0 ≤ inp.annualIncreaseRate)
    (hR : 0 ≤ inp.annualReturnRate) (m : ℕ) : 0 ≤ corpus inp m := by
  induction m with
  | zero => exact hcb
  | succ m ih =>
    rw [corpus]
    have h1 : (0 : ℚ) ≤ 1 + inp.annualReturnRate / 12 := by linarith
    exact add_nonneg (mul_nonneg ih h1) (monthlyContrib_nonneg hmc hg m)

lemma engineRun_result (inp : Input) (asOf : Date)
    (h : 0 < monthsToRetirement inp asOf) :
    (engineRun inp asOf).result =
      Except.ok (summaryOf inp asOf (monthsToRetirement inp asOf).toNat) := by
  rw [engineRun, if_neg (by omega : ¬ monthsToRetirement inp asOf ≤ 0)]

lemma engineRun_outcome (inp : Input) (asOf : Date)
    (h : 0 < monthsToRetirement inp asOf) :
    (engineRun inp asOf).outcome =
      (if wordsSafe (summaryOf inp asOf (monthsToRetirement inp asOf).toNat)
       then Except.ok () else Except.error Err.indexError) := by
  rw [engineRun, if_neg (by omega : ¬ monthsToRetirement inp asOf ≤ 0)]

end NPSv2

namespace NPSv2

open NPS

/-- Claim C1: for every valid input the simulation computes the corpus by
the recurrence corpus[m] = corpus[m-1] * (1 + monthly_rate) +
contribution[m] for m = 1 .. months_to_retirement, with corpus[0] =
current_balance and monthly_rate = annual_return_rate / 12 (simple
division), and total_corpus equals corpus[months_to_retirement]. -/
theorem claim_C1 (inp : Input) (asOf : Date)
    (h : 0 < monthsToRetirement inp asOf) :
    ∃ s, (engineRun inp asOf).result = Except.ok s ∧
      corpus inp 0 = inp.currentBalance ∧
      (∀ m : ℕ, corpus inp (m + 1) =
        corpus inp m * (1 + inp.annualReturnRate / 12) +
          monthlyContrib inp.monthlyContribution inp.annualIncreaseRate m) ∧
      s.monthlyRate = inp.annualReturnRate / 12 ∧
      s.totalCorpus = corpus inp (monthsToRetirement inp asOf).toNat :=
  ⟨_, engineRun_result inp asOf h, rfl, fun _ => rfl, rfl, rfl⟩

/-- Concrete instantiation of the theorem for claim C1. -/
theorem claim_C1_witness :
    0 < monthsToRetirement wInput wAsOf ∧
    (∃ s, (engineRun wInput wAsOf).result = Except.ok s ∧
      corpus wInput 0 = wInput.currentBalance ∧
      (∀ m : ℕ, corpus wInput (m + 1) =
        corpus wInput m * (1 + wInput.annualReturnRate / 12) +
          monthlyContrib wInput.monthlyContribution wInput.annualIncreaseRate m) ∧
      s.monthlyRate = wInput.annualReturnRate / 12 ∧
      s.totalCorpus = corpus wInput (monthsToRetirement wInput wAsOf).toNat) :=
  ⟨by decide, claim_C1 wInput wAsOf (by decide)⟩

/-- Claim C2: the contribution applied in month m (m = 1 ..
months_to_retirement) is monthly_contribution * (1 + annual_increase_rate)
raised to floor((m - 1) / 12); with a 5 percent increase the contribution
applied after exactly 12 months (month 13) is 1.05 times the initial one,
and after 24 months (month 25) it is 1.05 squared times the initial one. -/
theorem claim_C2 (mc g : ℚ) (m : ℕ) (hm : 1 ≤ m) :
    monthlyContrib mc g (m - 1) = mc * (1 + g) ^ ((m - 1) / 12) ∧
    monthlyContrib mc (5 / 100) (13 - 1) = mc * (105 / 100) ∧
    monthlyContrib mc (5 / 100) (25 - 1) = mc * (105 / 100) ^ 2 := by
  refine ⟨monthlyContrib_eq mc g (m - 1), ?_, ?_⟩
  · rw [monthlyContrib_eq]
    norm_num
  · rw [monthlyContrib_eq]
    norm_num

/-- Concrete instantiation of the theorem for claim C2. -/
theorem claim_C2_witness :
    1 ≤ 13 ∧
    (monthlyContrib 100 (5 / 100) (13 - 1) = 100 * (1 + 5 / 100) ^ ((13 - 1) / 12) ∧
      monthlyContrib 100 (5 / 100) (13 - 1) = 100 * (105 / 100) ∧
      monthlyContrib 100 (5 / 100) (25 - 1) = 100 * (105 / 100) ^ 2) :=
  ⟨by decide, claim_C2 100 (5 / 100) 13 (by decide)⟩

/-- Claim C4: the engine fails with the already-retired error exactly when
months_to_retirement = (ry - ay) * 12 + (rm - am) is at most 0
(day-of-month ignored), and in that case the monthly and yearly
trajectories remain empty and no summary is produced. -/
theorem claim_C4 (inp : Input) (asOf : Date) :
    ((engineRun inp asOf).result = Except.error Err.alreadyRetired ↔
      monthsToRetirement inp asOf ≤ 0) ∧
    (monthsToRetirement inp asOf ≤ 0 →
      (engineRun inp asOf).monthlyData = [] ∧
        (engineRun inp asOf).yearlyData = []) ∧
    monthsToRetirement inp asOf =
      ((computeRetirementDate inp.birthDate inp.retirementAge).year - asOf.year) * 12 +
        ((computeRetirementDate inp.birthDate inp.retirementAge).month - asOf.month) := by
  by_cases h : monthsToRetirement inp asOf ≤ 0
  · exact ⟨by simp [engineRun, h], fun _ => by simp [engineRun, h], rfl⟩
  · refine ⟨?_, fun hc => absurd hc h, rfl⟩
    rw [engineRun_result inp asOf (by omega)]
    simp [h]

/-- Concrete instantiation of the theorem for claim C4, at an input whose
retirement date is already in the past. -/
theorem claim_C4_witness :
    ((engineRun wRetiredInput wAsOf).result = Except.error Err.alreadyRetired ↔
      monthsToRetirement wRetiredInput wAsOf ≤ 0) ∧
    (monthsToRetirement wRetiredInput wAsOf ≤ 0 →
      (engineRun wRetiredInput wAsOf).monthlyData = [] ∧
        (engineRun wRetiredInput wAsOf).yearlyData = []) ∧
    monthsToRetirement wRetiredInput wAsOf =
      ((computeRetirementDate wRetiredInput.birthDate wRetiredInput.retirementAge).year -
          wAsOf.year) * 12 +
        ((computeRetirementDate wRetiredInput.birthDate wRetiredInput.retirementAge).month -
          wAsOf.month) :=
  claim_C4 wRetiredInput wAsOf

/-- Claim C5: total_invested equals current_balance plus the sum of the
escalating per-month contribution stream over the simulated months; with
no escalation this is current_balance + monthly_contribution *
months_to_retirement exactly, and the branched closed-form/iterative
computation of the copy variant equals the same sum. -/
theorem claim_C5 (inp : Input) (asOf : Date)
    (h : 0 < monthsToRetirement inp asOf) :
    ∃ s, (engineRun inp asOf).result = Except.ok s ∧
      s.totalInvested = inp.currentBalance +
        ∑ k ∈ Finset.range (monthsToRetirement inp asOf).toNat,
          monthlyContrib inp.monthlyContribution inp.annualIncreaseRate k ∧
      (inp.annualIncreaseRate = 0 →
        s.totalInvested = inp.currentBalance +
          inp.monthlyContribution * ((monthsToRetirement inp asOf).toNat : ℚ)) ∧
      p0TotalInvested inp (monthsToRetirement inp asOf).toNat = s.totalInvested := by
  refine ⟨_, engineRun_result inp asOf h, rfl, ?_, ?_⟩
  · intro hg
    have hTI : (summaryOf inp asOf (monthsToRetirement inp asOf).toNat).totalInvested =
        inp.currentBalance +
          ∑ k ∈ Finset.range (monthsToRetirement inp asOf).toNat,
            monthlyContrib inp.monthlyContribution inp.annualIncreaseRate k := rfl
    rw [hTI, hg, sum_monthlyContrib_zero]
  · rw [p0TotalInvested_eq]
    rfl

/-- Concrete instantiation of the theorem for claim C5. -/
theorem claim_C5_witness :
    0 < monthsToRetirement wInput wAsOf ∧
    (∃ s, (engineRun wInput wAsOf).result = Except.ok s ∧
      s.totalInvested = wInput.currentBalance +
        ∑ k ∈ Finset.range (monthsToRetirement wInput wAsOf).toNat,
          monthlyContrib wInput.monthlyContribution wInput.annualIncreaseRate k ∧
      (wInput.annualIncreaseRate = 0 →
        s.totalInvested = wInput.currentBalance +
          wInput.monthlyContribution * ((monthsToRetirement wInput wAsOf).toNat : ℚ)) ∧
      p0TotalInvested wInput (monthsToRetirement wInput wAsOf).toNat = s.totalInvested) :=
  ⟨by decide, claim_C5 wInput wAsOf (by decide)⟩

end NPSv2

namespace NPSv2

open NPS

/-- Claim C3: the computed retirement date is the last calendar day of the
birth month in year birth_year + retirement_age, obtained as the day
before the first of the following month; December rolls over to January 1
of the next year minus one day, February of a leap retirement year gives
the 29th, and birth date 1990-02-28 with retirement age 60 gives
2050-02-28. -/
theorem claim_C3 (birth : Date) (ra : Int) (h1 : 1 ≤ birth.month)
    (h2 : birth.month ≤ 12) :
    computeRetirementDate birth ra =
      ⟨birth.year + ra, birth.month, daysInMonth (birth.year + ra) birth.month⟩ ∧
    (birth.month = 12 →
      computeRetirementDate birth ra = prevDay ⟨birth.year + ra + 1, 1, 1⟩) ∧
    (birth.month = 2 → isLeapYear (birth.year + ra) = true →
      (computeRetirementDate birth ra).day = 29) ∧
    computeRetirementDate ⟨1990, 2, 28⟩ 60 = ⟨2050, 2, 28⟩ := by
  have main : computeRetirementDate birth ra =
      ⟨birth.year + ra, birth.month, daysInMonth (birth.year + ra) birth.month⟩ := by
    by_cases h12 : birth.month = 12
    · simp only [computeRetirementDate, prevDay, h12, if_pos]
      norm_num [daysInMonth, isLeapYear]
    · have hm1 : ¬ birth.month + 1 = 1 := by omega
      simp only [computeRetirementDate, prevDay, if_neg h12]
      norm_num [hm1]
  refine ⟨main, ?_, ?_, by decide⟩
  · intro h12
    rw [main]
    simp only [prevDay, h12]
    norm_num [daysInMonth, isLeapYear]
  · intro h2m hleap
    rw [main]
    simp [daysInMonth, h2m, hleap]

/-- Concrete instantiation of the theorem for claim C3. -/
theorem claim_C3_witness :
    (1 ≤ (⟨1990, 2, 28⟩ : Date).month ∧ (⟨1990, 2, 28⟩ : Date).month ≤ 12) ∧
    (computeRetirementDate ⟨1990, 2, 28⟩ 60 =
      ⟨(⟨1990, 2, 28⟩ : Date).year + 60, (⟨1990, 2, 28⟩ : Date).month,
        daysInMonth ((⟨1990, 2, 28⟩ : Date).year + 60) (⟨1990, 2, 28⟩ : Date).month⟩ ∧
      ((⟨1990, 2, 28⟩ : Date).month = 12 →
        computeRetirementDate ⟨1990, 2, 28⟩ 60 =
          prevDay ⟨(⟨1990, 2, 28⟩ : Date).year + 60 + 1, 1, 1⟩) ∧
      ((⟨1990, 2, 28⟩ : Date).month = 2 →
        isLeapYear ((⟨1990, 2, 28⟩ : Date).year + 60) = true →
        (computeRetirementDate ⟨1990, 2, 28⟩ 60).day = 29) ∧
      computeRetirementDate ⟨1990, 2, 28⟩ 60 = ⟨2050, 2, 28⟩) :=
  ⟨⟨by decide, by decide⟩, claim_C3 ⟨1990, 2, 28⟩ 60 (by decide) (by decide)⟩

/-- Claim C6: with annuity_ratio in [0, 1], annuity_corpus = total_corpus
* annuity_ratio and lump_sum = total_corpus * (1 - annuity_ratio), so
annuity_corpus + lump_sum equals total_corpus (exactly, hence within 1e-6
relative tolerance). -/
theorem claim_C6 (inp : Input) (asOf : Date)
    (h : 0 < monthsToRetirement inp asOf)
    (h0 : 0 ≤ inp.annuityFrac) (h1 : inp.annuityFrac ≤ 1) :
    ∃ s, (engineRun inp asOf).result = Except.ok s ∧
      s.annuityCorpus = s.totalCorpus * inp.annuityFrac ∧
      s.lumpSum = s.totalCorpus * (1 - inp.annuityFrac) ∧
      s.annuityCorpus + s.lumpSum = s.totalCorpus ∧
      |s.annuityCorpus + s.lumpSum - s.totalCorpus| ≤
        1 / 1000000 * |s.totalCorpus| := by
  refine ⟨_, engineRun_result inp asOf h, rfl, rfl, ?_, ?_⟩
  · show corpus inp _ * inp.annuityFrac + corpus inp _ * (1 - inp.annuityFrac) =
      corpus inp _
    ring
  · have hz : (summaryOf inp asOf (monthsToRetirement inp asOf).toNat).annuityCorpus +
        (summaryOf inp asOf (monthsToRetirement inp asOf).toNat).lumpSum -
        (summaryOf inp asOf (monthsToRetirement inp asOf).toNat).totalCorpus = 0 := by
      show corpus inp _ * inp.annuityFrac + corpus inp _ * (1 - inp.annuityFrac) -
        corpus inp _ = 0
      ring
    rw [hz, abs_zero]
    positivity

/-- Concrete instantiation of the theorem for claim C6. -/
theorem claim_C6_witness :
    (0 < monthsToRetirement wInput wAsOf ∧
      0 ≤ wInput.annuityFrac ∧ wInput.annuityFrac ≤ 1) ∧
    (∃ s, (engineRun wInput wAsOf).result = Except.ok s ∧
      s.annuityCorpus = s.totalCorpus * wInput.annuityFrac ∧
      s.lumpSum = s.totalCorpus * (1 - wInput.annuityFrac) ∧
      s.annuityCorpus + s.lumpSum = s.totalCorpus ∧
      |s.annuityCorpus + s.lumpSum - s.totalCorpus| ≤
        1 / 1000000 * |s.totalCorpus|) :=
  ⟨⟨by decide, by decide, by decide⟩,
    claim_C6 wInput wAsOf (by decide) (by decide) (by decide)⟩

/-- Claim C7: real_monthly_pension = monthly_pension / (1 +
inflation_rate) ^ (retirement_age - current_age), where current_age is
the whole-year age at the as-of date and monthly_pension =
annuity_corpus * annuity_rate / 12; with zero inflation the two pensions
coincide. -/
theorem claim_C7 (inp : Input) (asOf : Date)
    (h : 0 < monthsToRetirement inp asOf) :
    ∃ s, (engineRun inp asOf).result = Except.ok s ∧
      s.monthlyPension = s.annuityCorpus * inp.annuityRate / 12 ∧
      s.realMonthlyPension =
        s.monthlyPension /
          (1 + inp.inflationRate) ^ (inp.retirementAge - ageYears asOf inp.birthDate) ∧
      (inp.inflationRate = 0 → s.realMonthlyPension = s.monthlyPension) := by
  refine ⟨_, engineRun_result inp asOf h, rfl, rfl, ?_⟩
  intro hi
  have hr : (summaryOf inp asOf (monthsToRetirement inp asOf).toNat).realMonthlyPension =
      (summaryOf inp asOf (monthsToRetirement inp asOf).toNat).monthlyPension /
        (1 + inp.inflationRate) ^ (inp.retirementAge - ageYears asOf inp.birthDate) := rfl
  rw [hr, hi]
  norm_num

/-- Concrete instantiation of the theorem for claim C7. -/
theorem claim_C7_witness :
    0 < monthsToRetirement wInput wAsOf ∧
    (∃ s, (engineRun wInput wAsOf).result = Except.ok s ∧
      s.monthlyPension = s.annuityCorpus * wInput.annuityRate / 12 ∧
      s.realMonthlyPension =
        s.monthlyPension /
          (1 + wInput.inflationRate) ^
            (wInput.retirementAge - ageYears wAsOf wInput.birthDate) ∧
      (wInput.inflationRate = 0 → s.realMonthlyPension = s.monthlyPension)) :=
  ⟨by decide, claim_C7 wInput wAsOf (by decide)⟩

/-- Claim C8 (amended): for every input with non-negative current balance,
monthly contribution, annual increase rate and annual return rate, the
simulated corpus is monotonically non-decreasing month over month.  (The
claim as stated, with annual_return_rate merely at least -1, is refuted by
the counterexample below.) -/
theorem claim_C8 (inp : Input) (hcb : 0 ≤ inp.currentBalance)
    (hmc : 0 ≤ inp.monthlyContribution) (hg : 0 ≤ inp.annualIncreaseRate)
    (hR : 0 ≤ inp.annualReturnRate) (m : ℕ) :
    corpus inp m ≤ corpus inp (m + 1) := by
  have h0 := corpus_nonneg inp hcb hmc hg hR m
  have h1 := monthlyContrib_nonneg hmc hg m
  have h2 : 0 ≤ corpus inp m * (inp.annualReturnRate / 12) :=
    mul_nonneg h0 (by linarith)
  have h3 : corpus inp m * (1 + inp.annualReturnRate / 12) =
      corpus inp m + corpus inp m * (inp.annualReturnRate / 12) := by ring
  rw [corpus, h3]
  linarith

/-- Concrete instantiation of the theorem for claim C8. -/
theorem claim_C8_witness :
    (0 ≤ wInput.currentBalance ∧ 0 ≤ wInput.monthlyContribution ∧
      0 ≤ wInput.annualIncreaseRate ∧ 0 ≤ wInput.annualReturnRate) ∧
    corpus wInput 1 ≤ corpus wInput 2 :=
  ⟨⟨by decide, by decide, by decide, by decide⟩,
    claim_C8 wInput (by decide) (by decide) (by decide) (by decide) 1⟩

/-- Counterexample to claim C8 as stated: a non-negative monthly
contribution and an annual return rate of -1 (which the claim's
hypothesis "annual_return_rate ≥ -1" admits) make the corpus strictly
decrease in the first simulated month, even though month 1 is within the
simulated range for the given as-of date. -/
theorem claim_C8_counterexample :
    0 ≤ cexC8Input.monthlyContribution ∧
    (-1 : ℚ) ≤ cexC8Input.annualReturnRate ∧
    (1 : Int) ≤ monthsToRetirement cexC8Input ⟨2024, 9, 15⟩ ∧
    corpus cexC8Input 1 < corpus cexC8Input 0 := by
  refine ⟨by decide, by decide, by decide, ?_⟩
  norm_num [corpus, monthlyContrib, cexC8Input]

/-- Claim C9 (amended): the engine performs no range validation and has
no invalid-input failure; a negative current_balance, negative
monthly_contribution, or annuity_ratio outside [0, 1] is never rejected
before the simulation.  Whenever months_to_retirement is positive the
simulation and every derived quantity are computed; the run then either
returns normally or — only after all summary attributes are set — dies
with the uncontrolled IndexError that the number-to-words formatting
raises when some derived amount's integer part is below -20. -/
theorem claim_C9 (inp : Input) (asOf : Date)
    (h : 0 < monthsToRetirement inp asOf) :
    (engineRun inp asOf).result =
      Except.ok (summaryOf inp asOf (monthsToRetirement inp asOf).toNat) ∧
    (engineRun inp asOf).outcome =
      (if wordsSafe (summaryOf inp asOf (monthsToRetirement inp asOf).toNat)
       then Except.ok () else Except.error Err.indexError) :=
  ⟨engineRun_result inp asOf h, engineRun_outcome inp asOf h⟩

/-- Concrete instantiation of the theorem for claim C9, at an input with
a negative current balance. -/
theorem claim_C9_witness :
    0 < monthsToRetirement cexC9Input wAsOf ∧
    ((engineRun cexC9Input wAsOf).result =
      Except.ok (summaryOf cexC9Input wAsOf
        (monthsToRetirement cexC9Input wAsOf).toNat) ∧
    (engineRun cexC9Input wAsOf).outcome =
      (if wordsSafe (summaryOf cexC9Input wAsOf
          (monthsToRetirement cexC9Input wAsOf).toNat)
       then Except.ok () else Except.error Err.indexError)) :=
  ⟨by decide, claim_C9 cexC9Input wAsOf (by decide)⟩

/-- Counterexample to claim C9 as stated: at an input with a negative
current balance (all derived amounts staying within the range the
number-to-words formatting survives) the engine rejects nothing: the
whole run completes normally and the full projection result is produced
silently. -/
theorem claim_C9_counterexample :
    cexC9Input.currentBalance < 0 ∧
    (engineRun cexC9Input wAsOf).result =
      Except.ok (summaryOf cexC9Input wAsOf
        (monthsToRetirement cexC9Input wAsOf).toNat) ∧
    (engineRun cexC9Input wAsOf).outcome = Except.ok () := by
  have hm : (monthsToRetirement cexC9Input wAsOf).toNat = 2 := by decide
  have hc : corpus cexC9Input 2 = -10 := by
    norm_num [corpus, monthlyContrib, cexC9Input]
  have hage : ageYears wAsOf cexC9Input.birthDate = 59 := by decide
  have hsafe : wordsSafe (summaryOf cexC9Input wAsOf 2) = true := by
    simp only [wordsSafe, summaryOf, wordsIndianOk, hc, hage]
    norm_num [cexC9Input, wAsOf, Finset.sum_range_succ, monthlyContrib,
      pyInt, one_zpow]
  refine ⟨by decide, engineRun_result cexC9Input wAsOf (by decide), ?_⟩
  rw [engineRun_outcome cexC9Input wAsOf (by decide), hm, if_pos hsafe]

end NPSv2

namespace NPSv1

/-- Claim C10: in the closed-form variant, compute divides the
future-value-of-contributions term by monthly_rate = annual_return_rate /
12, so an input with annual_return_rate = 0 (nominally allowed by the
data-model constraint of being greater than -1) fails with a
division-by-zero error, while for annual_return_rate nonzero (and greater
than -1) the division is well-defined and compute returns a result. -/
theorem claim_C10 (inp : Input) (hR : -1 < inp.annualReturnRate) :
    (inp.annualReturnRate = 0 → compute inp = Except.error Err.zeroDivision) ∧
    (inp.annualReturnRate ≠ 0 → ∃ res, compute inp = Except.ok res) := by
  constructor
  · intro h0
    simp [compute, h0]
  · intro hne
    have hrpos : (0 : ℚ) < 1 + inp.annualReturnRate / 12 := by linarith
    have hr : inp.annualReturnRate / 12 ≠ 0 := div_ne_zero hne (by norm_num)
    have hRpos : (0 : ℚ) < 1 + inp.annualReturnRate := by linarith
    simp only [compute]
    rw [if_neg (fun hc => hrpos.ne' hc.1), if_neg hr,
      if_neg (fun hc => hRpos.ne' hc.1)]
    exact ⟨_, rfl⟩

/-- Concrete instantiation of the theorem for claim C10. -/
theorem claim_C10_witness :
    (-1 : ℚ) < wV1Input.annualReturnRate ∧
    ((wV1Input.annualReturnRate = 0 →
        compute wV1Input = Except.error Err.zeroDivision) ∧
      (wV1Input.annualReturnRate ≠ 0 → ∃ res, compute wV1Input = Except.ok res)) :=
  ⟨by decide, claim_C10 wV1Input (by decide)⟩

end NPSv1
